import Mathlib

/-!
Verification of `play_on_hdmi.py` (krixkrix/ffplay_wrapper).

Shallow embedding of the program's pure logic:
* the text parser of `modetest -c` output (`modetest_list_connectors`,
  source lines 74-134),
* the sysfs connector scan (`list_sys_drm_connectors`, lines 35-62),
* the single-attempt launcher (`try_play_ffplay`, lines 149-184),
* the backend fallback loop and the front of `main` (lines 187-322).

External effects (filesystem, subprocesses) are passed in as explicit data:
which executables `shutil.which` finds, what a started child process does
(its `poll()` result after the 2-second probe and its eventual `wait()`
code), the directory listing of `/sys/class/drm`, and the contents of the
per-connector `status` / `modes` files.  Exit codes of child processes are
`Int` (Python reports signals as negative codes).
-/

/-- ASCII whitespace as recognised by Python's `str.strip` and `re` `\s`
(the inputs parsed here are ASCII tool output). -/
def isSpaceChar (c : Char) : Bool :=
  c = ' ' || c = '\t' || c = '\n' || c = '\r' || c = '\x0b' || c = '\x0c'

/-- `re` character class `\d` on ASCII input. -/
def isDigitChar (c : Char) : Bool :=
  '0' ≤ c && c ≤ '9'

/-- `re` character class `\w` on ASCII input. -/
def isWordChar (c : Char) : Bool :=
  isDigitChar c || ('a' ≤ c && c ≤ 'z') || ('A' ≤ c && c ≤ 'Z') || c = '_'

/-- Python `str.strip()` on a list of characters. -/
def trimChars (l : List Char) : List Char :=
  ((l.dropWhile isSpaceChar).reverse.dropWhile isSpaceChar).reverse

/-- `not line.strip()`: the line is empty or all whitespace. -/
def isBlankLine (l : List Char) : Bool :=
  (l.dropWhile isSpaceChar).isEmpty

/-- Python's `pat in s` substring test. -/
def containsSub (pat : List Char) : List Char → Bool
  | [] => pat.isEmpty
  | c :: rest => pat.isPrefixOf (c :: rest) || containsSub pat rest

/-- `int()` of a digit string. -/
def digitsToNat (ds : List Char) : Nat :=
  ds.foldl (fun acc c => 10 * acc + (c.toNat - 48)) 0

/-- `re.match(r"\s*(\d+)\s+(\d+)\s+(\w+)\s+(\S+)", line)`, returning
`(int(group 1), group 3, group 4)` — the connector id, status and type —
as used at source lines 109-113.  Greedy scanning is equivalent to the
regex here because adjacent character classes are disjoint, so no
backtracking can succeed where the greedy scan fails. -/
def matchRow (l : List Char) : Option (Nat × List Char × List Char) :=
  let r0 := l.dropWhile isSpaceChar
  let d1 := r0.takeWhile isDigitChar
  let r1 := r0.dropWhile isDigitChar
  if d1.isEmpty then none else
  let s1 := r1.takeWhile isSpaceChar
  let r2 := r1.dropWhile isSpaceChar
  if s1.isEmpty then none else
  let d2 := r2.takeWhile isDigitChar
  let r3 := r2.dropWhile isDigitChar
  if d2.isEmpty then none else
  let s2 := r3.takeWhile isSpaceChar
  let r4 := r3.dropWhile isSpaceChar
  if s2.isEmpty then none else
  let w := r4.takeWhile isWordChar
  let r5 := r4.dropWhile isWordChar
  if w.isEmpty then none else
  let s3 := r5.takeWhile isSpaceChar
  let r6 := r5.dropWhile isSpaceChar
  if s3.isEmpty then none else
  let t := r6.takeWhile (fun c => !isSpaceChar c)
  if t.isEmpty then none else
  some (digitsToNat d1, w, t)

/-- `re.match(r"(\d+x\d+)", mode_line)` returning the matched text
(source lines 125-127). -/
def matchMode (l : List Char) : Option (List Char) :=
  let d1 := l.takeWhile isDigitChar
  let r1 := l.dropWhile isDigitChar
  if d1.isEmpty then none else
  match r1 with
  | 'x' :: r2 =>
    let d2 := r2.takeWhile isDigitChar
    if d2.isEmpty then none else some (d1 ++ 'x' :: d2)
  | _ => none

/-- One connector record as built at source lines 129-131:
`{"id": cid, "type": ctype, "status": status, "modes": modes}`. -/
structure Conn where
  id : Nat
  type : List Char
  status : List Char
  modes : List (List Char)
deriving DecidableEq, Repr

/-- Control state of the index-based scanning loop of source lines 103-133:
scanning for connector rows, seeking the `modes:` marker after a matched
row, or collecting indented mode lines. -/
inductive ParsePhase
  | rows
  | seekModes (c : Conn)
  | collectModes (c : Conn)
deriving DecidableEq, Repr

/-- The connector-block loop of source lines 103-133, one line at a time.
In `rows`: blank lines and lines that do not match the row shape are
skipped; a matching row starts seeking its `modes:` marker.  In
`seekModes`: lines are dropped until one contains `modes:` (end of input
emits the pending record with no modes).  In `collectModes`: non-blank
lines contribute a mode when they start with `<digits>x<digits>`; a blank
line ends the block — the Python loop leaves the outer index at the blank
line, which the subsequent blank-line check then skips, so consuming it
here is equivalent. -/
def connectorBlocks : List (List Char) → ParsePhase → List Conn
  | [], .rows => []
  | [], .seekModes c => [c]
  | [], .collectModes c => [c]
  | l :: rest, .rows =>
    if isBlankLine l then connectorBlocks rest .rows
    else
      match matchRow l with
      | some (cid, status, ctype) =>
        connectorBlocks rest (.seekModes { id := cid, type := ctype, status := status, modes := [] })
      | none => connectorBlocks rest .rows
  | l :: rest, .seekModes c =>
    if containsSub "modes:".toList l then connectorBlocks rest (.collectModes c)
    else connectorBlocks rest (.seekModes c)
  | l :: rest, .collectModes c =>
    if isBlankLine l then c :: connectorBlocks rest .rows
    else
      match matchMode (trimChars l) with
      | some m =>
        connectorBlocks rest (.collectModes { c with modes := c.modes ++ [m] })
      | none => connectorBlocks rest (.collectModes c)

/-- The parsing part of `modetest_list_connectors` (source lines 90-134),
applied to `p.stdout.splitlines()`: locate the `Connectors:` header
(`none` if absent), skip it, skip an optional column-header line whose
stripped form starts with `id`, then run the block loop. -/
def parseConnectors (out : List String) : Option (List Conn) :=
  let lines := out.map String.toList
  match lines.dropWhile (fun l => !containsSub "Connectors:".toList l) with
  | [] => none
  | _ :: rest1 =>
    let rest2 :=
      match rest1 with
      | [] => []
      | l :: t => if "id".toList.isPrefixOf (trimChars l) then t else l :: t
    some (connectorBlocks rest2 .rows)

/-- `modetest_list_connectors` (source lines 74-134).  `modetestFound`
reflects `shutil.which("modetest")`; `toolOutput` is `none` when
`subprocess.run(..., check=True)` raises `CalledProcessError` (nonzero
exit), otherwise the captured stdout lines.  `none` is the "unavailable"
result. -/
def modetest_list_connectors (modetestFound : Bool) (toolOutput : Option (List String)) :
    Option (List Conn) :=
  if !modetestFound then none
  else
    match toolOutput with
    | none => none
    | some out => parseConnectors out

/-- Python `str.strip()` on a `String`. -/
def strip (s : String) : String :=
  String.mk (trimChars s.toList)

/-- Code-point lexicographic order on character lists, the order Python's
`sorted` uses on strings. -/
def strLeChars : List Char → List Char → Bool
  | [], _ => true
  | _ :: _, [] => false
  | a :: as, b :: bs => if a < b then true else if b < a then false else strLeChars as bs

def strLe (s t : String) : Bool :=
  strLeChars s.toList t.toList

def insertStr (s : String) : List String → List String
  | [] => [s]
  | t :: ts => if strLe s t then s :: t :: ts else t :: insertStr s ts

/-- Python's `sorted` on a list of strings (insertion sort; strings have no
distinct equal elements, so stability is irrelevant). -/
def sortStrings : List String → List String
  | [] => []
  | s :: ss => insertStr s (sortStrings ss)

/-- The filter at source line 42: `entry.startswith("card") and "-" in entry`
(the prefix test spelled on character lists). -/
def is_connector_entry (e : String) : Bool :=
  "card".toList.isPrefixOf e.toList && containsSub "-".toList e.toList

/-- One `info` dict of source lines 44-60. -/
structure SysConn where
  name : String
  path : String
  status : String
  first_mode : Option String
deriving DecidableEq, Repr

/-- `modes = [ln.strip() for ln in f.readlines() if ln.strip()]` followed by
`modes[0] if modes else None` (source lines 56-58). -/
def first_nonblank_mode (lns : List String) : Option String :=
  ((lns.map strip).filter (fun m => m ≠ "")).head?

/-- Builds the `info` record of source lines 44-60 for one directory entry.
`statusOf e` is the contents of `/sys/class/drm/<e>/status` (`none` when the
read raises, leaving the `"unknown"` default); `modesOf e` is the list of
lines of `/sys/class/drm/<e>/modes` (`none` when the read raises, leaving
`first_mode` absent). -/
def mk_sys_conn (statusOf : String → Option String) (modesOf : String → Option (List String))
    (e : String) : SysConn :=
  { name := e
    path := "/sys/class/drm/" ++ e
    status :=
      match statusOf e with
      | some s => strip s
      | none => "unknown"
    first_mode :=
      match modesOf e with
      | some lns => first_nonblank_mode lns
      | none => none }

/-- `list_sys_drm_connectors` (source lines 35-62).  `dirExists` reflects
`os.path.isdir("/sys/class/drm")`; `entries` is `os.listdir` of it. -/
def list_sys_drm_connectors (dirExists : Bool) (entries : List String)
    (statusOf : String → Option String) (modesOf : String → Option (List String)) :
    List SysConn :=
  if !dirExists then []
  else ((sortStrings entries).filter is_connector_entry).map (mk_sys_conn statusOf modesOf)

/-- The backend names iterated at source lines 296-305. -/
inductive Backend
  | kmsdrm
  | fbcon
  | default
deriving DecidableEq, Repr

/-- The `--backend {auto|kmsdrm|fbcon|default}` argument (source lines 207-212). -/
inductive BackendChoice
  | auto
  | kmsdrm
  | fbcon
  | default
deriving DecidableEq, Repr

/-- `backends` as decided at source lines 289-293. -/
def backendsFor : BackendChoice → List Backend
  | .auto => [.kmsdrm, .fbcon, .default]
  | .kmsdrm => [.kmsdrm]
  | .fbcon => [.fbcon]
  | .default => [.default]

/-- The `env` overlay built at source lines 297-305 for one backend.
`fb0Exists` reflects `os.path.exists("/dev/fb0")`. -/
def buildEnv (b : Backend) (fb0Exists : Bool) : List (String × String) :=
  match b with
  | .kmsdrm => [("SDL_VIDEODRIVER", "kmsdrm")]
  | .fbcon =>
    ("SDL_VIDEODRIVER", "fbcon") :: (if fb0Exists then [("SDL_FBDEV", "/dev/fb0")] else [])
  | .default => []

/-- What the operating system does with one started ffplay child:
`pollAfterProbe` is `proc.poll()` at source line 171 after the 2-second
probe sleep (`none` = still running), and `waitCode` is the exit code that
`proc.wait()` at line 181 would eventually return. -/
structure ProcBehavior where
  pollAfterProbe : Option Int
  waitCode : Int
deriving DecidableEq, Repr

/-- `try_play_ffplay` (source lines 149-184).  `ffplayFound` reflects
`shutil.which("ffplay")`; a `false` value is the raised
`RuntimeError` of line 152, before any child is started.  The second
component records whether `subprocess.Popen` at line 166 was reached.
When the probe finds the child still running, `detach` returns `0`
immediately (line 178); otherwise the call blocks in `proc.wait()` and
returns its code (line 181).  A child that already exited has its code
returned as-is (line 184). -/
def try_play_ffplay (ffplayFound : Bool) (detach : Bool) (pb : ProcBehavior) :
    Except String Int × Bool :=
  if !ffplayFound then (Except.error "ffplay not found. Install ffmpeg (ffplay).", false)
  else
    match pb.pollAfterProbe with
    | none => if detach then (Except.ok 0, true) else (Except.ok pb.waitCode, true)
    | some c => (Except.ok c, true)

/-- `rc` as computed at source lines 307-311: the returned code, or `1`
when `try_play_ffplay` raised. -/
def rc_of (res : Except String Int) : Int :=
  match res with
  | Except.ok c => c
  | Except.error _ => 1

/-- Outcome of a run of `main` past argument validation: the process exit
code (`sys.exit` argument; plain `return` = 0), the `env` overlays built
(one per candidate attempted, in order), and how many child processes
were started. -/
structure RunResult where
  exitCode : Nat
  envsBuilt : List (List (String × String))
  procsStarted : Nat
deriving DecidableEq, Repr

/-- The backend fallback loop of source lines 295-322.  Per candidate the
`env` overlay is built (lines 297-305), `try_play_ffplay` is called inside
`try/except` (307-311), and `rc == 0` returns success (313-315); anything
else moves on to the next candidate (317).  Exhaustion is `sys.exit(3)`
(322). -/
def main_backend_loop (ffplayFound fb0Exists detach : Bool) (behav : Backend → ProcBehavior) :
    List Backend → RunResult
  | [] => { exitCode := 3, envsBuilt := [], procsStarted := 0 }
  | b :: rest =>
    if rc_of (try_play_ffplay ffplayFound detach (behav b)).1 = 0 then
      { exitCode := 0
        envsBuilt := [buildEnv b fb0Exists]
        procsStarted := if (try_play_ffplay ffplayFound detach (behav b)).2 then 1 else 0 }
    else
      { exitCode := (main_backend_loop ffplayFound fb0Exists detach behav rest).exitCode
        envsBuilt :=
          buildEnv b fb0Exists ::
            (main_backend_loop ffplayFound fb0Exists detach behav rest).envsBuilt
        procsStarted :=
          (if (try_play_ffplay ffplayFound detach (behav b)).2 then 1 else 0) +
            (main_backend_loop ffplayFound fb0Exists detach behav rest).procsStarted }

/-- The parsed command-line arguments (source lines 188-218). -/
structure Args where
  video : Option String
  listConnectors : Bool
  connectorId : Option Int
  forceMode : Bool
  backend : BackendChoice
  detach : Bool

/-- `main` (source lines 187-322).  `--list-connectors` prints and returns
(lines 220-234); a missing video argument exits 1 (236-238); a nonexistent
video file exits 2 (240-242); otherwise the backend loop runs over
`backendsFor args.backend`.  The connector-id block of lines 245-286 only
invokes `modetest`, catches every exception, and never starts the player
nor changes the exit code, so it contributes nothing to `RunResult`.
(Named `main_run` because Lean reserves `main` for executables.) -/
def main_run (args : Args) (videoExists ffplayFound fb0Exists : Bool)
    (behav : Backend → ProcBehavior) : RunResult :=
  if args.listConnectors then { exitCode := 0, envsBuilt := [], procsStarted := 0 }
  else
    match args.video with
    | none => { exitCode := 1, envsBuilt := [], procsStarted := 0 }
    | some _ =>
      if !videoExists then { exitCode := 2, envsBuilt := [], procsStarted := 0 }
      else main_backend_loop ffplayFound fb0Exists args.detach behav (backendsFor args.backend)

/-- When `shutil.which("ffplay")` succeeds, `try_play_ffplay` always reaches
the `subprocess.Popen` call, whatever the child then does. -/
theorem try_play_ffplay_starts (detach : Bool) (pb : ProcBehavior) :
    (try_play_ffplay true detach pb).2 = true := by
  cases h : pb.pollAfterProbe <;> cases detach <;> simp [try_play_ffplay, h]

/-- C1 (amended): if candidate `k`'s child is still running when polled after
the probe, and additionally `detach` is set or that child's eventual exit
code is 0, then the launcher attempts at most candidates `0..k`: no
environment overlay is built and no child process is started for candidates
`k+1..N`.  (As originally stated — regardless of the eventual exit code in
the non-detach case — the claim is false; see the counterexample.) -/
theorem first_live_candidate_stops_fallback (bs : List Backend)
    (behav : Backend → ProcBehavior) (fb0 detach : Bool) (k : Nat) (hk : k < bs.length)
    (hrun : (behav (bs.get ⟨k, hk⟩)).pollAfterProbe = none)
    (hstop : detach = true ∨ (behav (bs.get ⟨k, hk⟩)).waitCode = 0) :
    (main_backend_loop true fb0 detach behav bs).envsBuilt.length ≤ k + 1 ∧
    (main_backend_loop true fb0 detach behav bs).procsStarted ≤ k + 1 := by
  induction bs generalizing k with
  | nil => exact absurd hk (Nat.not_lt_zero k)
  | cons b rest ih =>
    by_cases hrc : rc_of (try_play_ffplay true detach (behav b)).1 = 0
    · constructor
      · simp [main_backend_loop, hrc]
      · simp [main_backend_loop, hrc]
        split <;> omega
    · cases k with
      | zero =>
        exfalso
        apply hrc
        have hb : (behav b).pollAfterProbe = none := hrun
        rcases hstop with hd | hw
        · simp [try_play_ffplay, hb, hd, rc_of]
        · have hw0 : (behav b).waitCode = 0 := hw
          cases detach <;> simp [try_play_ffplay, hb, rc_of, hw0]
      | succ k =>
        have h1 : k < rest.length := Nat.lt_of_succ_lt_succ hk
        have hrest := ih k h1 hrun hstop
        have hs1 : (if (try_play_ffplay true detach (behav b)).2 then 1 else 0) = 1 := by
          simp [try_play_ffplay_starts detach (behav b)]
        constructor
        · simp only [main_backend_loop, if_neg hrc, List.length_cons]
          omega
        · simp only [main_backend_loop, if_neg hrc, hs1]
          omega

/-- C1 witness: with one still-running candidate whose eventual exit code is
0, only that candidate is attempted. -/
theorem first_live_candidate_stops_fallback_witness :
    (main_backend_loop true false false (fun _ => { pollAfterProbe := none, waitCode := 0 })
        [Backend.kmsdrm, Backend.fbcon]).envsBuilt.length ≤ 1 ∧
    (main_backend_loop true false false (fun _ => { pollAfterProbe := none, waitCode := 0 })
        [Backend.kmsdrm, Backend.fbcon]).procsStarted ≤ 1 :=
  first_live_candidate_stops_fallback [Backend.kmsdrm, Backend.fbcon]
    (fun _ => { pollAfterProbe := none, waitCode := 0 }) false false 0 (by decide) rfl
    (Or.inr rfl)

/-- C1 counterexample: with `detach = false`, candidate 0 (kmsdrm) is the
first — and only — candidate whose child is still running when polled after
the probe, yet because that child later exits with code 1 the launcher goes
on to build the fbcon overlay and start a second child. -/
theorem live_candidate_nonzero_exit_continues_fallback :
    (main_backend_loop true false false (fun _ => { pollAfterProbe := none, waitCode := 1 })
        [Backend.kmsdrm, Backend.fbcon]).envsBuilt =
      [[("SDL_VIDEODRIVER", "kmsdrm")], [("SDL_VIDEODRIVER", "fbcon")]] ∧
    (main_backend_loop true false false (fun _ => { pollAfterProbe := none, waitCode := 1 })
        [Backend.kmsdrm, Backend.fbcon]).procsStarted = 2 := by decide

/-- C2 (amended): when ffplay is absent the launcher never starts a child
process and the overall run fails with exit code 3, but it does not stop at
the first candidate: the environment overlay is still built for every
candidate in the list, each attempt failing with the missing-executable
error. -/
theorem missing_ffplay_runs_all_candidates (bs : List Backend) (fb0 detach : Bool)
    (behav : Backend → ProcBehavior) :
    main_backend_loop false fb0 detach behav bs =
      { exitCode := 3, envsBuilt := bs.map (fun b => buildEnv b fb0), procsStarted := 0 } := by
  induction bs with
  | nil => rfl
  | cons b rest ih => simp [main_backend_loop, try_play_ffplay, rc_of, ih]

/-- C2 counterexample: with ffplay absent, the auto candidate list still has
all three environment overlays built, one per candidate — the launcher
falls through the whole list rather than failing before any candidate's
environment setup. -/
theorem missing_ffplay_builds_all_envs :
    (main_backend_loop false false false (fun _ => { pollAfterProbe := none, waitCode := 0 })
        [Backend.kmsdrm, Backend.fbcon, Backend.default]).envsBuilt =
      [[("SDL_VIDEODRIVER", "kmsdrm")], [("SDL_VIDEODRIVER", "fbcon")], []] := by decide

/-- C3 (amended): a child that has already exited when polled at the end of
the probe window with a NONZERO code is treated as a failure — its
environment overlay and started child are recorded and the launcher
proceeds to the remaining candidates.  (A quick exit with code 0 is instead
treated as success; see the counterexample.) -/
theorem quick_nonzero_exit_continues_fallback (b : Backend) (rest : List Backend)
    (behav : Backend → ProcBehavior) (fb0 detach : Bool) (c : Int)
    (h1 : (behav b).pollAfterProbe = some c) (h2 : c ≠ 0) :
    main_backend_loop true fb0 detach behav (b :: rest) =
      { exitCode := (main_backend_loop true fb0 detach behav rest).exitCode
        envsBuilt :=
          buildEnv b fb0 :: (main_backend_loop true fb0 detach behav rest).envsBuilt
        procsStarted := 1 + (main_backend_loop true fb0 detach behav rest).procsStarted } := by
  simp [main_backend_loop, try_play_ffplay, rc_of, h1, h2]

/-- C3 witness: a kmsdrm child exiting with code 2 within the probe window
makes the launcher move on to fbcon. -/
theorem quick_nonzero_exit_continues_fallback_witness :
    main_backend_loop true false false (fun _ => { pollAfterProbe := some 2, waitCode := 0 })
        [Backend.kmsdrm, Backend.fbcon] =
      { exitCode :=
          (main_backend_loop true false false (fun _ => { pollAfterProbe := some 2, waitCode := 0 })
            [Backend.fbcon]).exitCode
        envsBuilt :=
          buildEnv Backend.kmsdrm false ::
            (main_backend_loop true false false
              (fun _ => { pollAfterProbe := some 2, waitCode := 0 }) [Backend.fbcon]).envsBuilt
        procsStarted :=
          1 + (main_backend_loop true false false
              (fun _ => { pollAfterProbe := some 2, waitCode := 0 })
              [Backend.fbcon]).procsStarted } :=
  quick_nonzero_exit_continues_fallback Backend.kmsdrm [Backend.fbcon]
    (fun _ => { pollAfterProbe := some 2, waitCode := 0 }) false false 2 rfl (by decide)

/-- C3 counterexample: a child that exits with code 0 within the probe
window is NOT treated as a failure — the launcher returns success with exit
code 0 and never proceeds to the next candidate. -/
theorem quick_zero_exit_is_success :
    main_backend_loop true false false (fun _ => { pollAfterProbe := some 0, waitCode := 7 })
        [Backend.kmsdrm, Backend.fbcon] =
      { exitCode := 0, envsBuilt := [[("SDL_VIDEODRIVER", "kmsdrm")]], procsStarted := 1 } := by
  decide

/-- C4 (confirmed): with `detach = false` and the child still running when
polled after the probe, `try_play_ffplay` blocks in `proc.wait()` and
returns the child's eventual exit code as the attempt's result. -/
theorem nodetach_live_child_returns_wait_code (pb : ProcBehavior)
    (h : pb.pollAfterProbe = none) :
    try_play_ffplay true false pb = (Except.ok pb.waitCode, true) := by
  simp [try_play_ffplay, h]

/-- C4 witness. -/
theorem nodetach_live_child_returns_wait_code_witness :
    try_play_ffplay true false { pollAfterProbe := none, waitCode := 5 } =
      (Except.ok 5, true) :=
  nodetach_live_child_returns_wait_code { pollAfterProbe := none, waitCode := 5 } rfl

/-- C5 (confirmed): with `detach = true` and the child still running when
polled after the probe, `try_play_ffplay` returns success (0) immediately,
whatever exit code the detached child would later produce. -/
theorem detach_live_child_returns_zero (pb : ProcBehavior)
    (h : pb.pollAfterProbe = none) :
    try_play_ffplay true true pb = (Except.ok 0, true) := by
  simp [try_play_ffplay, h]

/-- C5 witness: the detached result is 0 even though the child would later
exit with code 42. -/
theorem detach_live_child_returns_zero_witness :
    try_play_ffplay true true { pollAfterProbe := none, waitCode := 42 } =
      (Except.ok 0, true) :=
  detach_live_child_returns_zero { pollAfterProbe := none, waitCode := 42 } rfl

/-- C6 (confirmed): a report with the `Connectors:` header, the single row
`29 10 connected HDMI-A` and a `modes:` block containing `1920x1080`
parses to exactly one connector record with id 29, status `connected`,
type `HDMI-A` and modes `["1920x1080"]`. -/
theorem modetest_parse_sample_report :
    modetest_list_connectors true
        (some ["Connectors:", "29 10 connected HDMI-A", "  modes:", "  1920x1080"]) =
      some [{ id := 29, type := "HDMI-A".toList, status := "connected".toList,
              modes := ["1920x1080".toList] }] := by decide

/-- C7 (confirmed): whenever a video argument is given (and
`--list-connectors` is not), but the file does not exist, `main` exits with
code 2 having built no environment overlay and started no player process. -/
theorem missing_video_exits_two (args : Args) (ffplayFound fb0Exists : Bool)
    (behav : Backend → ProcBehavior) (v : String)
    (h1 : args.listConnectors = false) (h2 : args.video = some v) :
    main_run args false ffplayFound fb0Exists behav =
      { exitCode := 2, envsBuilt := [], procsStarted := 0 } := by
  simp [main_run, h1, h2]

/-- C7 witness. -/
theorem missing_video_exits_two_witness :
    main_run
        { video := some "movie.mp4", listConnectors := false, connectorId := none,
          forceMode := false, backend := BackendChoice.auto, detach := false }
        false true true (fun _ => { pollAfterProbe := none, waitCode := 0 }) =
      { exitCode := 2, envsBuilt := [], procsStarted := 0 } :=
  missing_video_exits_two
    { video := some "movie.mp4", listConnectors := false, connectorId := none,
      forceMode := false, backend := BackendChoice.auto, detach := false }
    true true (fun _ => { pollAfterProbe := none, waitCode := 0 }) "movie.mp4" rfl rfl

/-- C8 (confirmed): `modetest_list_connectors` yields the "unavailable"
result `none` when the tool is missing, when it exits nonzero, and when no
line of its output contains the `Connectors:` header; and in the
row-scanning phase both blank lines and lines that do not match the row
shape are skipped, the remaining lines being parsed as if they were
absent. -/
theorem modetest_unavailable_and_skip :
    (∀ out, modetest_list_connectors false out = none) ∧
    modetest_list_connectors true none = none ∧
    (∀ out : List String, (∀ l ∈ out, containsSub "Connectors:".toList l.toList = false) →
      modetest_list_connectors true (some out) = none) ∧
    (∀ l rest, isBlankLine l = true →
      connectorBlocks (l :: rest) ParsePhase.rows = connectorBlocks rest ParsePhase.rows) ∧
    (∀ l rest, matchRow l = none →
      connectorBlocks (l :: rest) ParsePhase.rows = connectorBlocks rest ParsePhase.rows) := by
  refine ⟨fun out => rfl, rfl, ?_, ?_, ?_⟩
  · intro out h
    have hall : ∀ l ∈ out.map String.toList, (!containsSub "Connectors:".toList l) = true := by
      intro l hl
      obtain ⟨s, hs, rfl⟩ := List.mem_map.mp hl
      have := h s hs
      simp only [this, Bool.not_false]
    have hnil :
        (out.map String.toList).dropWhile (fun l => !containsSub "Connectors:".toList l) = [] :=
      List.dropWhile_eq_nil_iff.mpr hall
    show parseConnectors out = none
    simp only [parseConnectors]
    rw [hnil]
  · intro l rest h
    simp [connectorBlocks, h]
  · intro l rest h
    by_cases hb : isBlankLine l = true
    · simp [connectorBlocks, hb]
    · simp only [Bool.not_eq_true] at hb
      simp [connectorBlocks, hb, h]

/-- C8 witness: a header-less report is unavailable; an all-blank line and a
non-matching row are each skipped. -/
theorem modetest_unavailable_and_skip_witness :
    modetest_list_connectors true (some ["no header here", "29 10 connected HDMI-A"]) = none ∧
    connectorBlocks ["   ".toList, "29 10 connected HDMI-A".toList] ParsePhase.rows =
      connectorBlocks ["29 10 connected HDMI-A".toList] ParsePhase.rows ∧
    connectorBlocks ["garbage row".toList] ParsePhase.rows =
      connectorBlocks [] ParsePhase.rows :=
  ⟨modetest_unavailable_and_skip.2.2.1 ["no header here", "29 10 connected HDMI-A"] (by decide),
   modetest_unavailable_and_skip.2.2.2.1 "   ".toList ["29 10 connected HDMI-A".toList]
     (by decide),
   modetest_unavailable_and_skip.2.2.2.2 "garbage row".toList [] (by decide)⟩

/-- C9 (confirmed): the environment overlay per backend is exactly
`SDL_VIDEODRIVER=kmsdrm` for kmsdrm; `SDL_VIDEODRIVER=fbcon` plus
`SDL_FBDEV=/dev/fb0` when `/dev/fb0` exists (and without it otherwise) for
fbcon; and empty for default.  `--backend auto` yields the candidates
kmsdrm, fbcon, default in that order, and any other choice yields that
single candidate. -/
theorem backend_env_overlays :
    (∀ fb0, buildEnv Backend.kmsdrm fb0 = [("SDL_VIDEODRIVER", "kmsdrm")]) ∧
    buildEnv Backend.fbcon true = [("SDL_VIDEODRIVER", "fbcon"), ("SDL_FBDEV", "/dev/fb0")] ∧
    buildEnv Backend.fbcon false = [("SDL_VIDEODRIVER", "fbcon")] ∧
    (∀ fb0, buildEnv Backend.default fb0 = []) ∧
    backendsFor BackendChoice.auto = [Backend.kmsdrm, Backend.fbcon, Backend.default] ∧
    backendsFor BackendChoice.kmsdrm = [Backend.kmsdrm] ∧
    backendsFor BackendChoice.fbcon = [Backend.fbcon] ∧
    backendsFor BackendChoice.default = [Backend.default] := by decide

/-- C10 (confirmed): the records returned by the sysfs scan are, in order,
exactly the directory entries in sorted order that start with `card` and
contain a `-`; in particular every returned record's name has that shape
and entries of any other shape never appear. -/
theorem sys_connectors_shape_and_order (entries : List String)
    (statusOf : String → Option String) (modesOf : String → Option (List String)) :
    (list_sys_drm_connectors true entries statusOf modesOf).map (fun c => c.name) =
      (sortStrings entries).filter is_connector_entry ∧
    ∀ c ∈ list_sys_drm_connectors true entries statusOf modesOf,
      "card".toList.isPrefixOf c.name.toList = true ∧
        containsSub "-".toList c.name.toList = true := by
  have key : ∀ L : List String,
      L.map (fun e => (mk_sys_conn statusOf modesOf e).name) = L := by
    intro L
    induction L with
    | nil => rfl
    | cons a t ih =>
      show a :: t.map (fun e => (mk_sys_conn statusOf modesOf e).name) = a :: t
      rw [ih]
  constructor
  · show (((sortStrings entries).filter is_connector_entry).map
        (mk_sys_conn statusOf modesOf)).map (fun c => c.name) = _
    rw [List.map_map]
    exact key _
  · intro c hc
    have hc' : c ∈ ((sortStrings entries).filter is_connector_entry).map
        (mk_sys_conn statusOf modesOf) := hc
    obtain ⟨e, he, rfl⟩ := List.mem_map.mp hc'
    have hp : is_connector_entry e = true := (List.mem_filter.mp he).2
    have hp' := Bool.and_eq_true_iff.mp hp
    exact ⟨hp'.1, hp'.2⟩

/-- C10 witness: a mixed listing keeps only the `card1-HDMI-A-1` entry, and
that record's name starts with `card` and contains `-`. -/
theorem sys_connectors_shape_and_order_witness :
    (list_sys_drm_connectors true ["card1-HDMI-A-1"] (fun _ => none)
        (fun _ => none)).map (fun c => c.name) =
      (sortStrings ["card1-HDMI-A-1"]).filter is_connector_entry ∧
    "card".toList.isPrefixOf
      (mk_sys_conn (fun _ => none) (fun _ => none) "card1-HDMI-A-1").name.toList = true ∧
    containsSub "-".toList
      (mk_sys_conn (fun _ => none) (fun _ => none) "card1-HDMI-A-1").name.toList = true :=
  ⟨(sys_connectors_shape_and_order ["card1-HDMI-A-1"] (fun _ => none) (fun _ => none)).1,
   (sys_connectors_shape_and_order ["card1-HDMI-A-1"] (fun _ => none) (fun _ => none)).2
     (mk_sys_conn (fun _ => none) (fun _ => none) "card1-HDMI-A-1")
     (List.mem_singleton.mpr rfl)⟩
